import Mathlib

/-!
Verification development for the supply-chain analysis script `Model.py`.

The script is a linear pandas/sklearn pipeline:
load → preprocess → split → standardize → fit/evaluate nine classifiers
on two binary targets (`fraud`, `late_delivery`) → write one results file.

The embedding below translates the script's own data transformations
(`preprocess_data`, `split_data`, `standardize_data`, the `run_models`
loop) into executable Lean definitions.  Library calls whose bodies are
not part of the repository (`sklearn.LabelEncoder`,
`sklearn.train_test_split`, `sklearn.StandardScaler`) are modelled from
their documented behaviour, with the modelling choice recorded in each
doc comment.  Missing cells (pandas `NaN`) are modelled with `Option`.
-/

/-- A parsed timestamp, as produced by `pd.DatetimeIndex` on a parseable
cell of the `order date (DateOrders)` column.  Only the four fields the
script extracts are modelled. -/
structure Datetime where
  year : Int
  month : Nat
  weekday : Nat
  hour : Nat
deriving DecidableEq, Repr

/-- One raw record of the source table, restricted to the fields
`preprocess_data` reads.  `Option` marks cells that may be missing
(`NaN` after `pd.read_csv`); `orderDate` is `Option` because an empty
CSV cell becomes `NaT` silently (an unparseable non-empty cell raises
and aborts instead, so it produces no output row at all). -/
structure RawRow where
  customerFname : Option String
  customerLname : Option String
  customerZipcode : Option ℚ
  orderDate : Option Datetime
  orderItemQuantity : ℚ
  orderItemTotal : ℚ
  orderStatus : Option String
  deliveryStatus : Option String
deriving DecidableEq, Repr

/-- `astype(str)` on a cell: a missing value prints as the literal
string "nan" rather than being skipped (`Model.py` line 37). -/
def optStr : Option String → String
  | none => "nan"
  | some s => s

/-- `Series.fillna v`: replace a missing cell with `v`
(`Model.py` line 46). -/
def fillna (v : ℚ) : Option ℚ → Option ℚ
  | none => some v
  | some x => some x

/-- `pd.DatetimeIndex(col).year` and friends map `NaT` to a missing
value (pandas returns `NaN` in a float index for `NaT` entries). -/
def dtField {β : Type} (f : Datetime → β) : Option Datetime → Option β
  | none => none
  | some d => some (f d)

/-- The row-level output of `preprocess_data` (steps before the
categorical label encoding, which is a whole-column operation modelled
separately).  Fields are `Option`-valued so missingness is observable. -/
structure ProcessedRow where
  customerFullName : String
  customerZipcode : Option ℚ
  order_year : Option Int
  order_month : Option Nat
  order_week_day : Option Nat
  order_hour : Option Nat
  totalPrice : ℚ
  fraud : Nat
  late_delivery : Nat
deriving DecidableEq, Repr

/-- Row-level translation of `preprocess_data` (`Model.py` lines 34-64):
full-name concatenation, zipcode fill, date decomposition, total price,
and the two binary labels.  `np.where(col == lit, 1, 0)` compares the
cell to a string literal; a missing cell compares unequal, giving 0. -/
def preprocess_data_row (r : RawRow) : ProcessedRow :=
  { customerFullName := optStr r.customerFname ++ optStr r.customerLname
    customerZipcode := fillna 0 r.customerZipcode
    order_year := dtField Datetime.year r.orderDate
    order_month := dtField Datetime.month r.orderDate
    order_week_day := dtField Datetime.weekday r.orderDate
    order_hour := dtField Datetime.hour r.orderDate
    totalPrice := r.orderItemQuantity * r.orderItemTotal
    fraud := if r.orderStatus = some "SUSPECTED_FRAUD" then 1 else 0
    late_delivery := if r.deliveryStatus = some "Late delivery" then 1 else 0 }

/-! ### Categorical label encoding

`sklearn.LabelEncoder.fit_transform` is modelled from its documented
behaviour: `classes_` is the sorted list of distinct values of the
fitted column, `transform` maps a value to its index in `classes_`, and
`inverse_transform` maps a code back to `classes_[code]`. -/

/-- `LabelEncoder.classes_` after `fit(xs)`: the distinct values of
`xs` in sorted order (`np.unique`). -/
def leClasses (xs : List String) : List String :=
  (xs.dedup).insertionSort (fun a b => a ≤ b)

/-- `LabelEncoder.transform` on a single value: its index in
`classes_`. -/
def leTransform (classes : List String) (v : String) : Nat :=
  classes.indexOf v

/-- `LabelEncoder.inverse_transform` on a single code:
`classes_[code]`. -/
def leInverse (classes : List String) (code : Nat) : String :=
  classes.getD code ""

/-- `le.fit_transform(col)` as applied per column in `Model.py`
lines 72-73: fit on the full column, then replace each value by its
code. -/
def le_fit_transform (xs : List String) : List Nat :=
  xs.map (leTransform (leClasses xs))

/-- The 16 categorical columns encoded in `Model.py` lines 68-71. -/
def categorical_columns : List String :=
  ["Customer Country", "Market", "Type", "Product Name", "Customer Segment",
   "Customer State", "Order Region", "Order City", "Category Name",
   "Customer City", "Department Name", "Order State", "Shipping Mode",
   "order_week_day", "Order Country", "Customer Full Name"]

/-! ### Claims C1, C2: derived binary labels -/

/-- C1: for every input row, the derived fraud label is 1 iff the
`Order Status` cell literally equals "SUSPECTED_FRAUD", and is 0 for
every other value, including a missing cell. -/
theorem fraud_label_spec (r : RawRow) :
    ((preprocess_data_row r).fraud = 1 ↔ r.orderStatus = some "SUSPECTED_FRAUD")
    ∧ ((preprocess_data_row r).fraud = 0 ↔ r.orderStatus ≠ some "SUSPECTED_FRAUD")
    ∧ ((preprocess_data_row r).fraud = 1 ∨ (preprocess_data_row r).fraud = 0) := by
  unfold preprocess_data_row
  by_cases h : r.orderStatus = some "SUSPECTED_FRAUD" <;> simp [h]

/-- Witness for `fraud_label_spec` at a concrete row with a missing
status cell: the label evaluates to 0. -/
theorem fraud_label_spec_witness :
    ((preprocess_data_row ⟨some "A", some "B", some 1, none, 2, 3, none, some "Late delivery"⟩).fraud = 0
      ↔ (none : Option String) ≠ some "SUSPECTED_FRAUD") :=
  (fraud_label_spec ⟨some "A", some "B", some 1, none, 2, 3, none, some "Late delivery"⟩).2.1

/-- C2: for every input row, the derived late-delivery label is 1 iff
the `Delivery Status` cell literally equals "Late delivery", and is 0
otherwise. -/
theorem late_delivery_label_spec (r : RawRow) :
    ((preprocess_data_row r).late_delivery = 1 ↔ r.deliveryStatus = some "Late delivery")
    ∧ ((preprocess_data_row r).late_delivery = 0 ↔ r.deliveryStatus ≠ some "Late delivery") := by
  unfold preprocess_data_row
  by_cases h : r.deliveryStatus = some "Late delivery" <;> simp [h]

/-- Witness for `late_delivery_label_spec` at a concrete row whose
delivery status is "Late delivery": the label evaluates to 1. -/
theorem late_delivery_label_spec_witness :
    ((preprocess_data_row ⟨some "A", some "B", some 1, none, 2, 3, none, some "Late delivery"⟩).late_delivery = 1
      ↔ (some "Late delivery" : Option String) = some "Late delivery") :=
  (late_delivery_label_spec ⟨some "A", some "B", some 1, none, 2, 3, none, some "Late delivery"⟩).1

/-! ### Claim C6: no missing values in the derived columns

The zipcode column is `fillna`-ed and the two labels come from
`np.where`, so those are never missing.  The date-derived columns
inherit missingness from the order-date cell: an empty order date cell
parses to `NaT` and its `year`/`month`/`weekday`/`hour` are `NaN`.  For
`order_year`, `order_month` and `order_hour` that `NaN` survives into
the returned table, so the claim fails on a schema-conforming row whose
order-date cell is empty.  `order_week_day` is different: it is one of
the 16 categorical columns and is label-encoded at `Model.py` lines
72-73, and `LabelEncoder` does not raise on a numeric column containing
`NaN` — `np.unique` treats `NaN` as a value, sorted last — so in the
returned table every `order_week_day` cell, a missing weekday included,
is an integer code and never missing. -/

/-- Counterexample to C6 as stated: a row with the required fields but
an empty order-date cell yields a missing `order_year` (and likewise
`order_month` and `order_hour`) in the preprocessed output. -/
theorem preprocess_missing_year_cex :
    ((preprocess_data_row ⟨some "A", some "B", some 1, none, 2, 3,
        some "COMPLETE", some "Late delivery"⟩).order_year = none)
    ∧ ((preprocess_data_row ⟨some "A", some "B", some 1, none, 2, 3,
        some "COMPLETE", some "Late delivery"⟩).order_month = none) := by
  constructor <;> rfl

/-- The order used by `np.unique` on the float-valued weekday column:
numeric values ascending, `NaN` sorted last. -/
def weekdayLE : Option Nat → Option Nat → Prop
  | some a, some b => a ≤ b
  | some _, none => True
  | none, none => True
  | none, some _ => False

instance : DecidableRel weekdayLE := fun a b => by
  cases a <;> cases b <;> simp only [weekdayLE] <;> infer_instance

/-- `LabelEncoder.classes_` for the `order_week_day` column: the
distinct cell values — a missing cell counted as a value — in
`np.unique` order. -/
def leWeekdayClasses (xs : List (Option Nat)) : List (Option Nat) :=
  (xs.dedup).insertionSort weekdayLE

/-- `le.fit_transform` on the `order_week_day` column (`Model.py`
lines 72-73): `LabelEncoder` does not raise on `NaN` in a numeric
column, so every cell — a missing cell included — is replaced by its
integer code. -/
def le_fit_transform_week_day (xs : List (Option Nat)) : List Nat :=
  xs.map (fun v =>
    @List.indexOf (Option Nat) instBEqOfDecidableEq v (leWeekdayClasses xs))

/-- The `order_week_day` column of the table returned by
`preprocess_data`: the derived weekday cells of all rows (missing
exactly where the order-date cell is missing), label-encoded. -/
def returned_week_day_column (rows : List RawRow) : List Nat :=
  le_fit_transform_week_day
    (rows.map (fun x => (preprocess_data_row x).order_week_day))

/-- C6 (amended): in the table returned by `preprocess_data` the
zipcode column, the two label columns and the `order_week_day` column
have no missing values for any schema-conforming input —
`order_week_day` because the label encoding assigns every cell of the
column an integer code (a valid index into the encoder's classes),
missing weekday cells included; the derived `order_year`, `order_month`
and `order_hour` columns have no missing values in every row whose
order-date cell is present. -/
theorem preprocess_no_missing_spec (r : RawRow) (rows : List RawRow)
    (h : r.orderDate.isSome) :
    (preprocess_data_row r).customerZipcode.isSome
    ∧ (preprocess_data_row r).order_year.isSome
    ∧ (preprocess_data_row r).order_month.isSome
    ∧ (preprocess_data_row r).order_hour.isSome
    ∧ (returned_week_day_column rows).length = rows.length
    ∧ (∀ c ∈ returned_week_day_column rows,
        c < (leWeekdayClasses
          (rows.map (fun x => (preprocess_data_row x).order_week_day))).length) := by
  obtain ⟨d, hd⟩ := Option.isSome_iff_exists.mp h
  refine ⟨?_, ?_, ?_, ?_, ?_, ?_⟩
  · cases hz : r.customerZipcode <;> simp [preprocess_data_row, fillna, hz]
  · simp [preprocess_data_row, dtField, hd]
  · simp [preprocess_data_row, dtField, hd]
  · simp [preprocess_data_row, dtField, hd]
  · simp [returned_week_day_column, le_fit_transform_week_day]
  · intro c hc
    simp only [returned_week_day_column, le_fit_transform_week_day] at hc
    rcases List.mem_map.mp hc with ⟨v, hv, rfl⟩
    have hmem : v ∈ leWeekdayClasses
        (rows.map (fun x => (preprocess_data_row x).order_week_day)) := by
      unfold leWeekdayClasses
      exact (List.mem_insertionSort weekdayLE).mpr (List.mem_dedup.mpr hv)
    exact List.indexOf_lt_length.mpr hmem

/-- Witness for `preprocess_no_missing_spec`: one concrete row with a
present order date and a missing zipcode cell, over a two-row table
whose second row has an empty order-date cell — its weekday still
receives a valid integer code. -/
theorem preprocess_no_missing_spec_witness :
    ((preprocess_data_row ⟨some "A", some "B", none, some ⟨2017, 5, 2, 14⟩, 2, 3,
        some "COMPLETE", some "Late delivery"⟩).customerZipcode.isSome
    ∧ (preprocess_data_row ⟨some "A", some "B", none, some ⟨2017, 5, 2, 14⟩, 2, 3,
        some "COMPLETE", some "Late delivery"⟩).order_year.isSome
    ∧ (preprocess_data_row ⟨some "A", some "B", none, some ⟨2017, 5, 2, 14⟩, 2, 3,
        some "COMPLETE", some "Late delivery"⟩).order_month.isSome
    ∧ (preprocess_data_row ⟨some "A", some "B", none, some ⟨2017, 5, 2, 14⟩, 2, 3,
        some "COMPLETE", some "Late delivery"⟩).order_hour.isSome
    ∧ (returned_week_day_column
        [⟨some "A", some "B", none, some ⟨2017, 5, 2, 14⟩, 2, 3,
          some "COMPLETE", some "Late delivery"⟩,
         ⟨some "C", some "D", some 1, none, 1, 1, none, none⟩]).length
      = ([⟨some "A", some "B", none, some ⟨2017, 5, 2, 14⟩, 2, 3,
          some "COMPLETE", some "Late delivery"⟩,
         ⟨some "C", some "D", some 1, none, 1, 1, none, none⟩] : List RawRow).length
    ∧ 1 < (leWeekdayClasses
        (([⟨some "A", some "B", none, some ⟨2017, 5, 2, 14⟩, 2, 3,
            some "COMPLETE", some "Late delivery"⟩,
           ⟨some "C", some "D", some 1, none, 1, 1, none, none⟩] : List RawRow).map
          (fun x => (preprocess_data_row x).order_week_day))).length) :=
  have h := preprocess_no_missing_spec
    ⟨some "A", some "B", none, some ⟨2017, 5, 2, 14⟩, 2, 3,
      some "COMPLETE", some "Late delivery"⟩
    [⟨some "A", some "B", none, some ⟨2017, 5, 2, 14⟩, 2, 3,
        some "COMPLETE", some "Late delivery"⟩,
     ⟨some "C", some "D", some 1, none, 1, 1, none, none⟩] (by decide)
  ⟨h.1, h.2.1, h.2.2.1, h.2.2.2.1, h.2.2.2.2.1,
    h.2.2.2.2.2 1 (by decide)⟩

/-! ### Claim C7: encoder round trip -/

/-- C7: for each of the 16 categorical columns (the roster has exactly
16 entries), encoding a value seen during fit and decoding the code
with the encoder's inverse recovers the original string. -/
theorem encoder_round_trip_spec (xs : List String) (v : String) (hv : v ∈ xs) :
    leInverse (leClasses xs) (leTransform (leClasses xs) v) = v
    ∧ categorical_columns.length = 16 := by
  refine ⟨?_, rfl⟩
  have hmem : v ∈ leClasses xs := by
    unfold leClasses
    exact (List.mem_insertionSort _).mpr (List.mem_dedup.mpr hv)
  have hlt : (leClasses xs).indexOf v < (leClasses xs).length :=
    List.indexOf_lt_length.mpr hmem
  unfold leInverse leTransform
  rw [List.getD_eq_getElem _ _ hlt]
  exact List.getElem_indexOf hlt

/-- Witness for `encoder_round_trip_spec` on a concrete column. -/
theorem encoder_round_trip_spec_witness :
    leInverse (leClasses ["US", "EU", "US", "APAC"])
      (leTransform (leClasses ["US", "EU", "US", "APAC"]) "EU") = "EU"
    ∧ categorical_columns.length = 16 :=
  ⟨(encoder_round_trip_spec ["US", "EU", "US", "APAC"] "EU" (by decide)).1,
   (encoder_round_trip_spec ["US", "EU", "US", "APAC"] "EU" (by decide)).2⟩

/-! ### Splitter

`train_test_split(X, y, test_size=0.2, random_state=42)` is a library
call; it is modelled from sklearn's documented behaviour: a
deterministic permutation of the row indices `0..n-1` that depends only
on the seed and the row count, whose first `ceil(0.2*n)` entries form
the test set and the remaining entries the train set.  The exact
Mersenne-Twister permutation is not reproduced; a selection shuffle
driven by a linear congruential generator stands in for it.  No claim
below depends on which permutation it is, only on it being a
seed-determined permutation. -/

/-- One step of a linear congruential pseudo-random generator (stands in
for the seeded NumPy generator inside `train_test_split`). -/
def lcg (s : Nat) : Nat := (1103515245 * s + 12345) % 2147483648

/-- Selection shuffle: repeatedly pick a pseudo-random remaining element
and remove it. -/
def shuffleAux (s : Nat) (xs : List Nat) : List Nat :=
  if h : xs = [] then []
  else
    xs.getD (s % xs.length) 0 ::
      shuffleAux (lcg s) (xs.erase (xs.getD (s % xs.length) 0))
termination_by xs.length
decreasing_by
  have hlen : 0 < xs.length := List.length_pos.mpr h
  have hi : s % xs.length < xs.length := Nat.mod_lt _ hlen
  have hx : xs.getD (s % xs.length) 0 ∈ xs := by
    rw [List.getD_eq_getElem _ _ hi]; exact List.getElem_mem _
  have := List.length_erase_of_mem hx
  omega

/-- The shuffle returns a permutation of its input. -/
theorem shuffleAux_perm (n : Nat) :
    ∀ xs : List Nat, xs.length ≤ n → ∀ s, List.Perm (shuffleAux s xs) xs := by
  induction n with
  | zero =>
    intro xs hxs s
    have hnil : xs = [] := List.eq_nil_of_length_eq_zero (Nat.le_zero.mp hxs)
    rw [hnil, shuffleAux]
    simp
  | succ n ih =>
    intro xs hxs s
    rw [shuffleAux]
    split
    · next h => exact h ▸ List.Perm.refl []
    · next h =>
      have hlen : 0 < xs.length := List.length_pos.mpr h
      have hi : s % xs.length < xs.length := Nat.mod_lt _ hlen
      have hx : xs.getD (s % xs.length) 0 ∈ xs := by
        rw [List.getD_eq_getElem _ _ hi]; exact List.getElem_mem _
      have herase : (xs.erase (xs.getD (s % xs.length) 0)).length ≤ n := by
        rw [List.length_erase_of_mem hx]; omega
      exact ((ih _ herase (lcg s)).cons _).trans (List.perm_cons_erase hx).symm

/-- The permutation of row indices `0..n-1` used by the modelled
`train_test_split` for a given seed. -/
def shuffledIndices (seed n : Nat) : List Nat := shuffleAux seed (List.range n)

theorem shuffledIndices_perm (seed n : Nat) :
    List.Perm (shuffledIndices seed n) (List.range n) :=
  shuffleAux_perm (List.range n).length (List.range n) le_rfl seed

/-- The number of test rows: sklearn computes `ceil(test_size * n)`,
which for `test_size = 0.2` is `ceil(n / 5) = (n + 4) / 5`. -/
def nTest (n : Nat) : Nat := (n + 4) / 5

/-- A table abstracted to what the splitter reads: its column names and
its row count. -/
structure Table where
  cols : List String
  nrows : Nat
deriving DecidableEq, Repr

/-- The four partitions returned by `split_data`, abstracted to the
feature column names, the target column name, and the row-index sets of
the train and test partitions. -/
structure SplitResult where
  featureCols : List String
  targetCol : String
  trainIdx : List Nat
  testIdx : List Nat
deriving DecidableEq, Repr

/-- `split_data` (`Model.py` lines 80-86): the feature matrix is
`data.loc[:, data.columns != target_col]` (every column except the
target), the label vector is the target column, and
`train_test_split(..., test_size=0.2, random_state=42)` splits the row
indices by the fixed seed 42. -/
def split_data (d : Table) (target : String) : SplitResult :=
  { featureCols := d.cols.filter (fun c => decide (c ≠ target))
    targetCol := target
    trainIdx := (shuffledIndices 42 d.nrows).drop (nTest d.nrows)
    testIdx := (shuffledIndices 42 d.nrows).take (nTest d.nrows) }

/-! ### Preprocessor at column level -/

/-- pandas column assignment `data[c] = ...`: appends a new column at
the end unless a column of that name already exists. -/
def addCol (cols : List String) (c : String) : List String :=
  if c ∈ cols then cols else cols ++ [c]

/-- The columns dropped by `Model.py` lines 40-43 (privacy-sensitive,
redundant, or leakage-prone). -/
def dropped_cols_1 : List String :=
  ["Customer Email", "Product Status", "Customer Password", "Customer Street",
   "Customer Fname", "Customer Lname", "Latitude", "Longitude",
   "Product Description", "Product Image", "Order Zipcode",
   "shipping date (DateOrders)"]

/-- The now-redundant source columns dropped by `Model.py` line 64. -/
def dropped_cols_2 : List String :=
  ["Delivery Status", "Late_delivery_risk", "Order Status",
   "order date (DateOrders)"]

/-- The derived numeric columns appended by `Model.py` lines 49-53, in
assignment order. -/
def derived_numeric_cols : List String :=
  ["order_year", "order_month", "order_week_day", "order_hour", "TotalPrice"]

/-- `preprocess_data` at the level of column names (`Model.py` lines
34-76): add the full-name column, drop the first column set, append the
five derived numeric columns, append the two label columns, drop the
second column set.  Label encoding replaces values in place and changes
no column names.  The row count is unchanged. -/
def preprocess_data_cols (raw : Table) : Table :=
  { cols :=
      (addCol
        (addCol
          (derived_numeric_cols.foldl addCol
            ((addCol raw.cols "Customer Full Name").filter
              (fun c => decide (c ∉ dropped_cols_1))))
          "fraud")
        "late_delivery").filter (fun c => decide (c ∉ dropped_cols_2))
    nrows := raw.nrows }

/-- The two calls to `split_data` in `main` (`Model.py` lines 166-170):
both act on the same processed table, one per target label. -/
def main_splits (raw : Table) : SplitResult × SplitResult :=
  (split_data (preprocess_data_cols raw) "fraud",
   split_data (preprocess_data_cols raw) "late_delivery")

theorem mem_addCol_self (cols : List String) (c : String) : c ∈ addCol cols c := by
  unfold addCol
  split
  · assumption
  · simp

theorem mem_addCol_of_mem {a : String} (cols : List String) (c : String)
    (h : a ∈ cols) : a ∈ addCol cols c := by
  unfold addCol
  split
  · exact h
  · exact List.mem_append_left _ h

theorem mem_foldl_addCol {a : String} (cs : List String) (cols : List String)
    (h : a ∈ cols) : a ∈ cs.foldl addCol cols := by
  induction cs generalizing cols with
  | nil => exact h
  | cons c cs ih => exact ih _ (mem_addCol_of_mem _ _ h)

/-- Both derived label columns are columns of the processed table,
whatever the raw column set was. -/
theorem labels_mem_preprocess_cols (raw : Table) :
    "fraud" ∈ (preprocess_data_cols raw).cols
    ∧ "late_delivery" ∈ (preprocess_data_cols raw).cols := by
  simp only [preprocess_data_cols]
  constructor
  · refine List.mem_filter.mpr
      ⟨mem_addCol_of_mem _ _ (mem_addCol_self _ _), by decide⟩
  · refine List.mem_filter.mpr ⟨mem_addCol_self _ _, by decide⟩

/-! ### Claim C3: the train/test partition -/

/-- C3: for every table and target column, `split_data` partitions the
row indices `0..n-1` into train and test sets that are disjoint and
exhaustive; the test set holds `ceil(0.2*n)` rows, so five times its
size is within rounding distance (at most 4) of `n`; and the split is
deterministic for the fixed seed: a second call on the same input
yields the identical partition. -/
theorem split_data_partition_spec (d : Table) (target : String) :
    (∀ i, (i ∈ (split_data d target).trainIdx ∨ i ∈ (split_data d target).testIdx)
        ↔ i < d.nrows)
    ∧ (∀ i, ¬(i ∈ (split_data d target).trainIdx ∧ i ∈ (split_data d target).testIdx))
    ∧ (split_data d target).testIdx.length = nTest d.nrows
    ∧ (split_data d target).trainIdx.length = d.nrows - nTest d.nrows
    ∧ d.nrows ≤ 5 * (split_data d target).testIdx.length
    ∧ 5 * (split_data d target).testIdx.length ≤ d.nrows + 4
    ∧ split_data d target = split_data d target := by
  have hperm := shuffledIndices_perm 42 d.nrows
  have hlen : (shuffledIndices 42 d.nrows).length = d.nrows := by
    simpa using hperm.length_eq
  have hnodup : (shuffledIndices 42 d.nrows).Nodup :=
    hperm.nodup_iff.mpr (List.nodup_range _)
  have hle : nTest d.nrows ≤ d.nrows := by unfold nTest; omega
  refine ⟨?_, ?_, ?_, ?_, ?_, ?_, rfl⟩
  · intro i
    simp only [split_data]
    rw [or_comm, ← List.mem_append, List.take_append_drop, hperm.mem_iff,
      List.mem_range]
  · intro i hi
    simp only [split_data] at hi
    exact List.disjoint_take_drop hnodup le_rfl hi.2 hi.1
  · simp only [split_data]
    rw [List.length_take, hlen]
    exact Nat.min_eq_left hle
  · simp only [split_data]
    rw [List.length_drop, hlen]
  · simp only [split_data]
    rw [List.length_take, hlen]
    unfold nTest
    omega
  · simp only [split_data]
    rw [List.length_take, hlen]
    unfold nTest
    omega

/-! ### Claim C9: feature columns -/

/-- C9: the feature matrix built by `split_data` contains exactly the
columns of the table other than the target; in particular, on the
processed table each binary label is retained as a predictor feature
when the other label is the target. -/
theorem feature_columns_spec (raw d : Table) (target c : String) :
    (c ∈ (split_data d target).featureCols ↔ c ∈ d.cols ∧ c ≠ target)
    ∧ "late_delivery" ∈ (split_data (preprocess_data_cols raw) "fraud").featureCols
    ∧ "fraud" ∈ (split_data (preprocess_data_cols raw) "late_delivery").featureCols := by
  refine ⟨?_, ?_, ?_⟩
  · simp [split_data, List.mem_filter]
  · simp only [split_data]
    refine List.mem_filter.mpr ⟨(labels_mem_preprocess_cols raw).2, by decide⟩
  · simp only [split_data]
    refine List.mem_filter.mpr ⟨(labels_mem_preprocess_cols raw).1, by decide⟩

/-! ### Claim C10: the two splits in `main` share one partition -/

/-- C10: the fraud split and the late-delivery split performed in
`main` use the same seed and ratio on tables with the same row indices,
so they induce the identical train/test partition of row indices: a row
is in the fraud test set iff it is in the late-delivery test set. -/
theorem split_partition_same_across_targets_spec (raw : Table) :
    (main_splits raw).1.trainIdx = (main_splits raw).2.trainIdx
    ∧ (main_splits raw).1.testIdx = (main_splits raw).2.testIdx
    ∧ (∀ i, i ∈ (main_splits raw).1.testIdx ↔ i ∈ (main_splits raw).2.testIdx)
    ∧ (∀ i, i ∈ (main_splits raw).1.trainIdx ↔ i ∈ (main_splits raw).2.trainIdx) :=
  ⟨rfl, rfl, fun _ => Iff.rfl, fun _ => Iff.rfl⟩

/-! ### Scaler

`sklearn.StandardScaler` is a library call; it is modelled from its
documented behaviour: `fit` stores each column's mean and (population)
variance of the fitted matrix, `transform` maps each entry `v` of a
column to `(v - mean) / scale` where `scale = sqrt(var)` and a
zero-variance column gets scale 1.  The square root is kept abstract as
a parameter `sq` because the exact square root of a rational is
irrational in general (sklearn computes it in floating point); no claim
below depends on its value.  Matrices are lists of rows. -/

/-- The mean of one column (`StandardScaler.mean_`). -/
def colMean (xs : List ℚ) : ℚ := xs.sum / xs.length

/-- The population variance of one column (`StandardScaler.var_`,
computed with `ddof = 0`). -/
def colVar (xs : List ℚ) : ℚ :=
  ((xs.map (fun v => (v - colMean xs) ^ 2)).sum) / xs.length

/-- `StandardScaler.fit(x)`: the per-column `(mean, variance)` pairs of
the fitted matrix. -/
def fitScaler (x : List (List ℚ)) : List (ℚ × ℚ) :=
  (x.transpose).map (fun col => (colMean col, colVar col))

/-- One scaled entry: centre by the column mean, divide by the column
scale (`sqrt` of the variance; 1 for a zero-variance column). -/
def scaleEntry (sq : ℚ → ℚ) (stat : ℚ × ℚ) (v : ℚ) : ℚ :=
  (v - stat.1) / (if stat.2 = 0 then 1 else sq stat.2)

/-- `StandardScaler.transform(x)` using the fitted statistics
`stats`. -/
def scalerTransform (sq : ℚ → ℚ) (stats : List (ℚ × ℚ)) (x : List (List ℚ)) :
    List (List ℚ) :=
  x.map (fun row => (row.zip stats).map (fun p => scaleEntry sq p.2 p.1))

/-- `standardize_data` (`Model.py` lines 90-96): `fit_transform` on the
train matrix, then `transform` — with the statistics fitted on the
train matrix — on the test matrix. -/
def standardize_data (sq : ℚ → ℚ) (xTrain xTest : List (List ℚ)) :
    List (List ℚ) × List (List ℚ) :=
  (scalerTransform sq (fitScaler xTrain) xTrain,
   scalerTransform sq (fitScaler xTrain) xTest)

/-- C4: the scaling statistics are each column's mean and variance of
the train matrix alone, both returned matrices are transformed with
exactly those statistics, and for any two test matrices the scaled
train matrix is identical — the test matrix never influences the
statistics. -/
theorem standardize_data_train_only_spec (sq : ℚ → ℚ)
    (xTrain xTest xTest1 xTest2 : List (List ℚ)) :
    (standardize_data sq xTrain xTest).1 = scalerTransform sq (fitScaler xTrain) xTrain
    ∧ (standardize_data sq xTrain xTest).2 = scalerTransform sq (fitScaler xTrain) xTest
    ∧ fitScaler xTrain = (xTrain.transpose).map (fun col => (colMean col, colVar col))
    ∧ (standardize_data sq xTrain xTest1).1 = (standardize_data sq xTrain xTest2).1 :=
  ⟨rfl, rfl, rfl, rfl⟩

/-! ### Orchestrator: model objects (claim C5) -/

/-- The two prediction targets. -/
inductive Target
  | fraud
  | late_delivery
deriving DecidableEq, Repr

/-- A classifier object: its identity (its position in the roster
list, standing in for Python object identity) and its learned state —
`none` before any `fit`, `some t` after being fitted on target `t`. -/
structure ModelObj where
  objId : Nat
  fittedOn : Option Target
deriving DecidableEq, Repr

/-- `evaluate_model` (`Model.py` lines 100-120) as it acts on the
model object: `model.fit(...)` mutates the object in place, overwriting
any previously learned state; the object identity is unchanged.  The
returned object models the post-call state of the same Python
object. -/
def evaluate_model (m : ModelObj) (t : Target) : ModelObj :=
  { m with fittedOn := some t }

/-- What one `evaluate_model` call received: the object identity, the
target, and the learned state the object held at call time. -/
structure EvalCall where
  objId : Nat
  target : Target
  fittedBefore : Option Target
deriving DecidableEq, Repr

/-- The classifier roster of `run_models` (`Model.py` lines 125-133),
in order. -/
def model_roster : List String :=
  ["LogisticRegression", "GaussianNB", "LinearSVC", "KNeighborsClassifier",
   "LinearDiscriminantAnalysis", "RandomForestClassifier",
   "ExtraTreesClassifier", "XGBClassifier", "DecisionTreeClassifier"]

/-- The per-model body of the `run_models` loop (`Model.py` lines
136-141): one fresh object per roster entry, passed first to
`evaluate_model` for the fraud target and then — the same object,
already fitted — to `evaluate_model` for the late-delivery target. -/
def run_model_pair (i : Nat) : List EvalCall :=
  let m : ModelObj := ⟨i, none⟩
  let c1 : EvalCall := ⟨m.objId, Target.fraud, m.fittedOn⟩
  let m1 := evaluate_model m Target.fraud
  let c2 : EvalCall := ⟨m1.objId, Target.late_delivery, m1.fittedOn⟩
  [c1, c2]

/-- The sequence of `evaluate_model` calls made by the `run_models`
loop over the roster (identified by roster positions). -/
def run_models_calls (ids : List Nat) : List EvalCall :=
  ids.flatMap run_model_pair

/-- Counterexample to C5 as stated: for the first roster entry, the
object handed to the late-delivery evaluation is the very object that
was fitted for the fraud target — the identities coincide and the
object already carries its fraud-fitted state when handed over. -/
theorem model_reuse_cex :
    ((run_models_calls [0]).getD 1 ⟨99, Target.fraud, none⟩).objId
        = ((run_models_calls [0]).getD 0 ⟨99, Target.fraud, none⟩).objId
    ∧ ((run_models_calls [0]).getD 1 ⟨99, Target.fraud, none⟩).target
        = Target.late_delivery
    ∧ ((run_models_calls [0]).getD 1 ⟨99, Target.fraud, none⟩).fittedBefore
        = some Target.fraud := by
  refine ⟨rfl, rfl, rfl⟩

/-- C5 (amended): in the orchestrator loop each roster entry's object
is reused across the two targets — the late-delivery evaluation
receives the same object (same identity) that was just fitted for
fraud, still carrying its fraud-fitted state, which the second fit then
overwrites; the object is dropped only after both of its evaluation
entries are recorded. -/
theorem model_reuse_spec (ids : List Nat) (i : Nat) :
    run_models_calls ids =
      ids.flatMap (fun j =>
        [⟨j, Target.fraud, none⟩, ⟨j, Target.late_delivery, some Target.fraud⟩])
    ∧ (run_model_pair i).length = 2
    ∧ ((run_model_pair i).getD 1 ⟨i, Target.fraud, none⟩).objId
        = ((run_model_pair i).getD 0 ⟨i, Target.fraud, none⟩).objId
    ∧ ((run_model_pair i).getD 1 ⟨i, Target.fraud, none⟩).fittedBefore
        = some Target.fraud :=
  ⟨rfl, rfl, rfl, rfl⟩

/-! ### Orchestrator: evaluation events and the results file (claim C8) -/

/-- Observable events of `run_models`: the completed evaluation of one
roster entry on one target, and the write of the results file. -/
inductive Event
  | evaluated (model : String) (t : Target)
  | wroteResults
deriving DecidableEq, Repr

/-- The loop of `run_models` (`Model.py` lines 136-151) under a failure
model: `fails m t = true` means `model.fit`/`model.predict` raises for
roster entry `m` on target `t` (e.g. an incompatible feature type).
A raise propagates immediately — there is no try/except — so the loop
abandons the remaining roster entries.  Returns the evaluation events
that completed, in order, and whether the whole loop completed. -/
def run_models_loop (fails : String → Target → Bool) :
    List String → List Event × Bool
  | [] => ([], true)
  | m :: rest =>
    if fails m Target.fraud then ([], false)
    else if fails m Target.late_delivery then
      ([Event.evaluated m Target.fraud], false)
    else
      (Event.evaluated m Target.fraud ::
        Event.evaluated m Target.late_delivery ::
        (run_models_loop fails rest).1,
       (run_models_loop fails rest).2)

/-- `run_models` (`Model.py` lines 124-156): run the loop over the
roster; the results table is written (`results_df.to_csv`, line 155)
only after the loop has completed for every roster entry, and that
write is the only one. -/
def run_models_events (fails : String → Target → Bool)
    (roster : List String) : List Event × Bool :=
  if (run_models_loop fails roster).2 then
    ((run_models_loop fails roster).1 ++ [Event.wroteResults], true)
  else ((run_models_loop fails roster).1, false)

/-- The evaluation events of a fully successful run, in roster order:
each entry evaluated on fraud and then on late delivery. -/
def all_evals (roster : List String) : List Event :=
  roster.flatMap (fun m =>
    [Event.evaluated m Target.fraud, Event.evaluated m Target.late_delivery])

theorem run_models_loop_success (fails : String → Target → Bool) :
    ∀ roster : List String,
      (∀ m ∈ roster, fails m Target.fraud = false ∧ fails m Target.late_delivery = false) →
      run_models_loop fails roster = (all_evals roster, true) := by
  intro roster
  induction roster with
  | nil => intro _; rfl
  | cons m rest ih =>
    intro h
    have hm := h m (List.mem_cons_self m rest)
    have hrest := fun x hx => h x (List.mem_cons_of_mem _ hx)
    simp [run_models_loop, hm.1, hm.2, ih hrest, all_evals]

theorem run_models_loop_failure (fails : String → Target → Bool) :
    ∀ (pre : List String) (m : String) (post : List String),
      (∀ p ∈ pre, fails p Target.fraud = false ∧ fails p Target.late_delivery = false) →
      (fails m Target.fraud = true ∨ fails m Target.late_delivery = true) →
      run_models_loop fails (pre ++ m :: post)
        = (all_evals pre ++
            (if fails m Target.fraud then [] else [Event.evaluated m Target.fraud]),
           false) := by
  intro pre
  induction pre with
  | nil =>
    intro m post _ hm
    by_cases hf : fails m Target.fraud
    · simp [run_models_loop, hf, all_evals]
    · rcases hm with hm | hm
      · exact absurd hm hf
      · simp [run_models_loop, hf, hm, all_evals]
  | cons p pre ih =>
    intro m post hpre hm
    have hp := hpre p (List.mem_cons_self p pre)
    have hpre2 := fun x hx => hpre x (List.mem_cons_of_mem _ hx)
    simp [run_models_loop, hp.1, hp.2, ih m post hpre2 hm, all_evals]

theorem wroteResults_not_mem_all_evals (roster : List String) :
    Event.wroteResults ∉ all_evals roster := by
  intro h
  rcases List.mem_flatMap.mp h with ⟨m, _, hm⟩
  simp at hm

theorem mem_all_evals_imp (roster : List String) (p : String) (t : Target)
    (h : Event.evaluated p t ∈ all_evals roster) : p ∈ roster := by
  rcases List.mem_flatMap.mp h with ⟨m, hmem, hm⟩
  simp at hm
  rcases hm with ⟨hp, _⟩ | ⟨hp, _⟩ <;> exact hp ▸ hmem

/-- C8: the results file is written exactly once, after every roster
entry (the roster has nine classifiers) has been evaluated on both
targets; if any entry's fit or predict raises, the remaining roster
entries are not evaluated and the results file is not written. -/
theorem results_write_spec :
    (∀ (fails : String → Target → Bool) (roster : List String),
      (∀ m ∈ roster,
          fails m Target.fraud = false ∧ fails m Target.late_delivery = false) →
      run_models_events fails roster = (all_evals roster ++ [Event.wroteResults], true)
        ∧ (run_models_events fails roster).1.count Event.wroteResults = 1)
    ∧ (∀ (fails : String → Target → Bool) (pre : List String) (m : String)
        (post : List String),
      (∀ p ∈ pre,
          fails p Target.fraud = false ∧ fails p Target.late_delivery = false) →
      (fails m Target.fraud = true ∨ fails m Target.late_delivery = true) →
      Event.wroteResults ∉ (run_models_events fails (pre ++ m :: post)).1
        ∧ (∀ p ∈ post, p ∉ pre → p ≠ m → ∀ t,
            Event.evaluated p t ∉ (run_models_events fails (pre ++ m :: post)).1))
    ∧ model_roster.length = 9 := by
  refine ⟨?_, ?_, rfl⟩
  · intro fails roster h
    have hl := run_models_loop_success fails roster h
    constructor
    · simp [run_models_events, hl]
    · have hnm := wroteResults_not_mem_all_evals roster
      simp [run_models_events, hl, List.count_append,
        List.count_eq_zero.mpr hnm]
  · intro fails pre m post hpre hm
    have hl := run_models_loop_failure fails pre m post hpre hm
    constructor
    · intro hw
      simp only [run_models_events, hl] at hw
      rcases List.mem_append.mp hw with hw | hw
      · exact wroteResults_not_mem_all_evals pre hw
      · by_cases hf : fails m Target.fraud <;> simp [hf] at hw
    · intro p hpost hnpre hne t hw
      simp only [run_models_events, hl] at hw
      rcases List.mem_append.mp hw with hw | hw
      · exact hnpre (mem_all_evals_imp pre p t hw)
      · by_cases hf : fails m Target.fraud <;> simp [hf] at hw
        exact hne hw.1

/-- A failure model with no failures. -/
def failsNever (_m : String) (_t : Target) : Bool := false

/-- A failure model in which the `LinearSVC` roster entry raises on
every target and every other entry succeeds. -/
def failsLinearSVC (m : String) (_t : Target) : Bool := m == "LinearSVC"

/-- Witness for `results_write_spec`: with no failures, the run over
the nine-entry roster ends in exactly one write of the results file;
with the third entry (`LinearSVC`) raising, the file is never written
and the fourth entry is never evaluated. -/
theorem results_write_spec_witness :
    run_models_events failsNever model_roster
        = (all_evals model_roster ++ [Event.wroteResults], true)
    ∧ Event.wroteResults ∉ (run_models_events failsLinearSVC
        (["LogisticRegression", "GaussianNB"] ++ "LinearSVC" ::
          ["KNeighborsClassifier", "LinearDiscriminantAnalysis",
           "RandomForestClassifier", "ExtraTreesClassifier", "XGBClassifier",
           "DecisionTreeClassifier"])).1
    ∧ Event.evaluated "KNeighborsClassifier" Target.fraud ∉
        (run_models_events failsLinearSVC
        (["LogisticRegression", "GaussianNB"] ++ "LinearSVC" ::
          ["KNeighborsClassifier", "LinearDiscriminantAnalysis",
           "RandomForestClassifier", "ExtraTreesClassifier", "XGBClassifier",
           "DecisionTreeClassifier"])).1 :=
  ⟨(results_write_spec.1 failsNever model_roster (by decide)).1,
   (results_write_spec.2.1 failsLinearSVC ["LogisticRegression", "GaussianNB"]
      "LinearSVC"
      ["KNeighborsClassifier", "LinearDiscriminantAnalysis",
       "RandomForestClassifier", "ExtraTreesClassifier", "XGBClassifier",
       "DecisionTreeClassifier"] (by decide) (by decide)).1,
   (results_write_spec.2.1 failsLinearSVC ["LogisticRegression", "GaussianNB"]
      "LinearSVC"
      ["KNeighborsClassifier", "LinearDiscriminantAnalysis",
       "RandomForestClassifier", "ExtraTreesClassifier", "XGBClassifier",
       "DecisionTreeClassifier"] (by decide) (by decide)).2
      "KNeighborsClassifier" (by decide) (by decide) (by decide) Target.fraud⟩
